import Mathlib

/-!
Verification of the ISO-8859-7 (Greek) byte-classification module
(`src/enc/iso_8859_7.c`): a static 256-entry flag table and four query
functions (`char_width`, `alpha_char`, `alnum_char`, `isupper_char`).
The table and the four functions are embedded below directly from the
C source; bytes read through a `const char *` are modelled as signed
char values (`Int` in -128..127) and the C conversion
`const unsigned char v = *c` as reduction mod 256.
-/

/-- Modelled from the spec: the three flag-bit constants are defined in
the header `yp_encoding.h`, which is not part of the visible source.
The spec's table description (ASCII digits carry `ALPHANUMERIC` only and
have entry `0b010`; lowercase Latin letters carry `ALPHABETIC` and
`ALPHANUMERIC` and have entry `0b011`; uppercase Latin letters carry all
three flags and have entry `0b111`) fixes `ALPHABETIC` as bit 0. -/
def YP_ENCODING_ALPHABETIC_BIT : Nat := 0b001

/-- Modelled from the spec: `ALPHANUMERIC` is bit 1 of each entry. -/
def YP_ENCODING_ALPHANUMERIC_BIT : Nat := 0b010

/-- Modelled from the spec: `UPPERCASE` is bit 2 of each entry. -/
def YP_ENCODING_UPPERCASE_BIT : Nat := 0b100

/-- The 256-entry classification table, transcribed row by row from
`yp_encoding_iso_8859_7_table` in `src/enc/iso_8859_7.c`. -/
def yp_encoding_iso_8859_7_table : List Nat := [
  -- 0      1      2      3      4      5      6      7      8      9      A      B      C      D      E      F
  0b000, 0b000, 0b000, 0b000, 0b000, 0b000, 0b000, 0b000, 0b000, 0b000, 0b000, 0b000, 0b000, 0b000, 0b000, 0b000, -- 0x
  0b000, 0b000, 0b000, 0b000, 0b000, 0b000, 0b000, 0b000, 0b000, 0b000, 0b000, 0b000, 0b000, 0b000, 0b000, 0b000, -- 1x
  0b000, 0b000, 0b000, 0b000, 0b000, 0b000, 0b000, 0b000, 0b000, 0b000, 0b000, 0b000, 0b000, 0b000, 0b000, 0b000, -- 2x
  0b010, 0b010, 0b010, 0b010, 0b010, 0b010, 0b010, 0b010, 0b010, 0b010, 0b000, 0b000, 0b000, 0b000, 0b000, 0b000, -- 3x
  0b000, 0b111, 0b111, 0b111, 0b111, 0b111, 0b111, 0b111, 0b111, 0b111, 0b111, 0b111, 0b111, 0b111, 0b111, 0b111, -- 4x
  0b111, 0b111, 0b111, 0b111, 0b111, 0b111, 0b111, 0b111, 0b111, 0b111, 0b111, 0b000, 0b000, 0b000, 0b000, 0b000, -- 5x
  0b000, 0b011, 0b011, 0b011, 0b011, 0b011, 0b011, 0b011, 0b011, 0b011, 0b011, 0b011, 0b011, 0b011, 0b011, 0b011, -- 6x
  0b011, 0b011, 0b011, 0b011, 0b011, 0b011, 0b011, 0b011, 0b011, 0b011, 0b011, 0b000, 0b000, 0b000, 0b000, 0b000, -- 7x
  0b000, 0b000, 0b000, 0b000, 0b000, 0b000, 0b000, 0b000, 0b000, 0b000, 0b000, 0b000, 0b000, 0b000, 0b000, 0b000, -- 8x
  0b000, 0b000, 0b000, 0b000, 0b000, 0b000, 0b000, 0b000, 0b000, 0b000, 0b000, 0b000, 0b000, 0b000, 0b000, 0b000, -- 9x
  0b000, 0b000, 0b000, 0b000, 0b000, 0b000, 0b000, 0b000, 0b000, 0b000, 0b000, 0b000, 0b000, 0b000, 0b000, 0b000, -- Ax
  0b000, 0b000, 0b000, 0b000, 0b000, 0b000, 0b111, 0b000, 0b111, 0b111, 0b111, 0b000, 0b111, 0b000, 0b111, 0b111, -- Bx
  0b011, 0b111, 0b111, 0b111, 0b111, 0b111, 0b111, 0b111, 0b111, 0b111, 0b111, 0b111, 0b111, 0b111, 0b111, 0b111, -- Cx
  0b111, 0b111, 0b000, 0b111, 0b111, 0b111, 0b111, 0b111, 0b111, 0b111, 0b111, 0b111, 0b011, 0b011, 0b011, 0b011, -- Dx
  0b011, 0b011, 0b011, 0b011, 0b011, 0b011, 0b011, 0b011, 0b011, 0b011, 0b011, 0b011, 0b011, 0b011, 0b011, 0b011, -- Ex
  0b011, 0b011, 0b011, 0b011, 0b011, 0b011, 0b011, 0b011, 0b011, 0b011, 0b011, 0b011, 0b011, 0b011, 0b011, 0b000  -- Fx
]

/-- The C statement `const unsigned char v = *c;`: conversion of a signed
char value to `unsigned char`, i.e. reduction modulo 256. -/
def toUnsignedChar (c : Int) : Nat := (c % 256).toNat

/-- Indexing `yp_encoding_iso_8859_7_table[v]`, kept partial via `Option`
so that in-bounds access (claim C9) is a provable fact rather than an
assumption built into the model. -/
def tableEntry? (v : Nat) : Option Nat := yp_encoding_iso_8859_7_table.get? v

/-- A byte value 0-255 as it appears when read through a `const char *`
(signed char on the reference platform): values 0x80-0xFF are negative. -/
def byteToSignedChar (b : Nat) : Int :=
  if b < 128 then (b : Int) else (b : Int) - 256

/-- `yp_encoding_iso_8859_7_char_width`: always returns 1. -/
def yp_encoding_iso_8859_7_char_width (_c : Int) : Nat := 1

/-- `yp_encoding_iso_8859_7_alpha_char`: table lookup masked with the
`ALPHABETIC` bit, returning 1 or 0. -/
def yp_encoding_iso_8859_7_alpha_char (c : Int) : Nat :=
  if Nat.land ((tableEntry? (toUnsignedChar c)).getD 0) YP_ENCODING_ALPHABETIC_BIT ≠ 0
  then 1 else 0

/-- `yp_encoding_iso_8859_7_alnum_char`: table lookup masked with the
`ALPHANUMERIC` bit, returning 1 or 0. -/
def yp_encoding_iso_8859_7_alnum_char (c : Int) : Nat :=
  if Nat.land ((tableEntry? (toUnsignedChar c)).getD 0) YP_ENCODING_ALPHANUMERIC_BIT ≠ 0
  then 1 else 0

/-- `yp_encoding_iso_8859_7_isupper_char`: table lookup masked with the
`UPPERCASE` bit, returning a boolean. -/
def yp_encoding_iso_8859_7_isupper_char (c : Int) : Bool :=
  Nat.land ((tableEntry? (toUnsignedChar c)).getD 0) YP_ENCODING_UPPERCASE_BIT ≠ 0

/-- The spec-level predicate `is_alphabetic(b)` for a byte value `b`:
the byte passed through a `char` pointer to the source function. -/
def is_alphabetic (b : Fin 256) : Bool :=
  yp_encoding_iso_8859_7_alpha_char (byteToSignedChar b.val) = 1

/-- The spec-level predicate `is_alphanumeric(b)`. -/
def is_alphanumeric (b : Fin 256) : Bool :=
  yp_encoding_iso_8859_7_alnum_char (byteToSignedChar b.val) = 1

/-- The spec-level predicate `is_uppercase(b)`. -/
def is_uppercase (b : Fin 256) : Bool :=
  yp_encoding_iso_8859_7_isupper_char (byteToSignedChar b.val)

/-- The spec-level query `char_width(b)`. -/
def char_width (b : Fin 256) : Nat :=
  yp_encoding_iso_8859_7_char_width (byteToSignedChar b.val)

set_option maxRecDepth 8192

/-- C1: for every byte value b in 0-255, if is_alphabetic(b) returns true
then is_alphanumeric(b) also returns true (the ALPHABETIC flag implies the
ALPHANUMERIC flag for every entry of the 256-entry table). -/
theorem C1_alphabetic_implies_alphanumeric :
    ∀ b : Fin 256, is_alphabetic b = true → is_alphanumeric b = true := by decide

/-- Witness for C1 at the concrete byte 0x41. -/
theorem C1_witness : is_alphanumeric (0x41 : Fin 256) = true :=
  C1_alphabetic_implies_alphanumeric (0x41 : Fin 256) (by decide)

/-- C2 counterexample: the claim that is_alphanumeric(0xA1) returns true
and is_alphabetic(0xA1) returns false is refuted at the concrete byte
0xA1, whose table entry has no flags set. -/
theorem C2_counterexample :
    ¬ (is_alphanumeric (0xA1 : Fin 256) = true ∧
       is_alphabetic (0xA1 : Fin 256) = false) := by decide

/-- C2 (amended): for the byte value 0xA1, is_alphanumeric(0xA1) returns
false and is_alphabetic(0xA1) returns false (the table entry for 0xA1 has
no flags set). -/
theorem C2_byte_A1_no_flags :
    is_alphanumeric (0xA1 : Fin 256) = false ∧
    is_alphabetic (0xA1 : Fin 256) = false := by decide

/-- C3: every byte in 0x41-0x5A (ASCII uppercase Latin) is alphabetic,
alphanumeric and uppercase; every byte in 0x61-0x7A (ASCII lowercase
Latin) is alphabetic and alphanumeric but not uppercase. -/
theorem C3_ascii_latin_letters :
    ∀ b : Fin 256,
      (0x41 ≤ b.val ∧ b.val ≤ 0x5A →
        is_alphabetic b = true ∧ is_alphanumeric b = true ∧
        is_uppercase b = true) ∧
      (0x61 ≤ b.val ∧ b.val ≤ 0x7A →
        is_alphabetic b = true ∧ is_alphanumeric b = true ∧
        is_uppercase b = false) := by decide

/-- Witness for C3 at the concrete bytes 0x41 and 0x61. -/
theorem C3_witness :
    (is_alphabetic (0x41 : Fin 256) = true ∧
     is_alphanumeric (0x41 : Fin 256) = true ∧
     is_uppercase (0x41 : Fin 256) = true) ∧
    (is_alphabetic (0x61 : Fin 256) = true ∧
     is_alphanumeric (0x61 : Fin 256) = true ∧
     is_uppercase (0x61 : Fin 256) = false) :=
  ⟨(C3_ascii_latin_letters (0x41 : Fin 256)).1 (by decide),
   (C3_ascii_latin_letters (0x61 : Fin 256)).2 (by decide)⟩

/-- C4: every byte in 0x30-0x39 (ASCII digit) is alphanumeric but not
alphabetic, and the concrete byte 0x39 is also not uppercase. -/
theorem C4_ascii_digits :
    (∀ b : Fin 256, 0x30 ≤ b.val ∧ b.val ≤ 0x39 →
      is_alphanumeric b = true ∧ is_alphabetic b = false) ∧
    is_uppercase (0x39 : Fin 256) = false := ⟨by decide, by decide⟩

/-- Witness for C4 at the concrete byte 0x39. -/
theorem C4_witness :
    is_alphanumeric (0x39 : Fin 256) = true ∧
    is_alphabetic (0x39 : Fin 256) = false :=
  C4_ascii_digits.1 (0x39 : Fin 256) (by decide)

/-- C5: each of the letter positions 0xB6, 0xB8, 0xB9, 0xBA, 0xBC, 0xBE,
0xBF in the 0xBx row is alphabetic, alphanumeric and uppercase. -/
theorem C5_Bx_row_uppercase_letters :
    ∀ b : Fin 256,
      b.val ∈ [0xB6, 0xB8, 0xB9, 0xBA, 0xBC, 0xBE, 0xBF] →
      is_alphabetic b = true ∧ is_alphanumeric b = true ∧
      is_uppercase b = true := by decide

/-- Witness for C5 at the concrete byte 0xB6. -/
theorem C5_witness :
    is_alphabetic (0xB6 : Fin 256) = true ∧
    is_alphanumeric (0xB6 : Fin 256) = true ∧
    is_uppercase (0xB6 : Fin 256) = true :=
  C5_Bx_row_uppercase_letters (0xB6 : Fin 256) (by decide)

/-- C6: the byte 0xC1 (Greek capital alpha) is alphabetic, alphanumeric
and uppercase. -/
theorem C6_greek_uppercase_byte_C1 :
    is_alphabetic (0xC1 : Fin 256) = true ∧
    is_alphanumeric (0xC1 : Fin 256) = true ∧
    is_uppercase (0xC1 : Fin 256) = true := by decide

/-- C7: char_width returns 1 for every byte value 0-255, with no
precondition on the input. -/
theorem C7_char_width_always_one : ∀ b : Fin 256, char_width b = 1 :=
  fun _ => rfl

/-- C8: for each of the bytes 0x00 (NUL), 0x20 (space), 0x7F (DEL) and
0x80 (undefined region), all three predicates return false. -/
theorem C8_undefined_bytes_all_false :
    (is_alphabetic (0x00 : Fin 256) = false ∧
     is_alphanumeric (0x00 : Fin 256) = false ∧
     is_uppercase (0x00 : Fin 256) = false) ∧
    (is_alphabetic (0x20 : Fin 256) = false ∧
     is_alphanumeric (0x20 : Fin 256) = false ∧
     is_uppercase (0x20 : Fin 256) = false) ∧
    (is_alphabetic (0x7F : Fin 256) = false ∧
     is_alphanumeric (0x7F : Fin 256) = false ∧
     is_uppercase (0x7F : Fin 256) = false) ∧
    (is_alphabetic (0x80 : Fin 256) = false ∧
     is_alphanumeric (0x80 : Fin 256) = false ∧
     is_uppercase (0x80 : Fin 256) = false) := by decide

/-- C9: for every byte value 0-255, including those that appear as
negative signed char values, the unsigned index computed from the read
char is within the 256-entry table domain and the table lookup yields a
defined entry (the Option-valued lookup is some). -/
theorem C9_lookup_total :
    ∀ b : Fin 256,
      toUnsignedChar (byteToSignedChar b.val) < 256 ∧
      (tableEntry? (toUnsignedChar (byteToSignedChar b.val))).isSome = true := by
  decide

/-- C10: for every byte value b in 0-255, if is_uppercase(b) returns true
then is_alphabetic(b) and is_alphanumeric(b) also return true. -/
theorem C10_uppercase_implies_letter :
    ∀ b : Fin 256, is_uppercase b = true →
      is_alphabetic b = true ∧ is_alphanumeric b = true := by decide

/-- Witness for C10 at the concrete byte 0x41. -/
theorem C10_witness :
    is_alphabetic (0x41 : Fin 256) = true ∧
    is_alphanumeric (0x41 : Fin 256) = true :=
  C10_uppercase_implies_letter (0x41 : Fin 256) (by decide)
